import Mathlib

/-!
Verification of `scrape_gerrit_titles.py` (repository `scrape-qtbug-commits`).

Shallow embedding conventions:
* A Python string is a sequence of unicode code points; we model it as
  `List Char` (named `Str`).  Python slicing `s[:n]` is `List.take n`,
  Python string comparison (`<`, used by `sorted`) is the lexicographic
  order on code points, which is exactly Mathlib's order on `List Char`.
* A Python `set` of strings used only for membership tests is a
  `Finset Str`.
* The network fetch, the HTML parse tree and the git subprocess are
  external collaborators; they are modelled as explicit inputs
  (a list of parsed nodes, a `GitEnv` describing what the git invocation
  does, a `Bool` saying whether the output file is writable).
* Side effects of the program (the exit code, what file is written,
  whether a write error was printed to stderr) are collected in a
  `RunResult` value returned by the model of the `__main__` block.
-/

namespace ScrapeGerrit

/-- A Python string, as its sequence of code points. -/
abbrev Str := List Char

/-- A `(hash, truncated_summary)` pair as built by `get_commits_on_branch`. -/
abbrev Commit := Str × Str

/-- Line 9: `MAX_SUMMARY_LENGTH = 50`. -/
def MAX_SUMMARY_LENGTH : Nat := 50

/-- The truncation `s[:MAX_SUMMARY_LENGTH]` applied inline at lines 48 and
120 of the source (the spec calls this operation `normalize`). -/
def normalize (s : Str) : Str := s.take MAX_SUMMARY_LENGTH

/-! ### Title extraction (`scrape_with_cookies`, lines 40-51)

Each `td` node with class `nav gerrit-subject` is represented by
`Option Str`: `some t` when `td.find('a')` returns a tag whose
`get_text(strip=True)` is `t` (possibly the empty string), `none` when
`td.find('a')` returns Python `None`.  The guard `if a_tag:` at line 45
tests object truthiness, which holds for every tag object, so it is
exactly the `some`/`none` distinction. -/

/-- The `for td in td_tags` loop of lines 43-49, with the accumulating
`titles` list made explicit. -/
def scrapeLoop : List (Option Str) → List Str → List Str
  | [], acc => acc
  | some t :: rest, acc => scrapeLoop rest (acc ++ [normalize t])
  | none :: rest, acc => scrapeLoop rest acc

/-- `scrape_with_cookies` on the success path (HTTP 200, parse succeeded):
the list `titles` returned at line 51.  `fetchOk = false` models a
`requests` exception or parse error, returning `None` (lines 53-58). -/
def scrape_with_cookies (fetchOk : Bool) (tds : List (Option Str)) :
    Option (List Str) :=
  if fetchOk then some (scrapeLoop tds []) else none

/-! ### Sorting and deduplication (`__main__`, lines 216-221) -/

/-- Line 218: `sorted_scraped_titles = sorted(scraped_titles)`.  Python's
`sorted` is a comparison sort over the (total) lexicographic string
order, so its output is the unique sorted rearrangement; insertion sort
computes the same list. -/
def sortedTitles (titles : List Str) : List Str :=
  titles.insertionSort (· ≤ ·)

/-- Line 219: `unique_scraped_titles_set = set(sorted_scraped_titles)`.
The Python set is used only for membership, so it is a `Finset`. -/
def uniqueTitlesSet (titles : List Str) : Finset Str :=
  (sortedTitles titles).toFinset

/-! ### Matching (`filter_titles_by_commits`, lines 141-160) -/

/-- The `for commit_hash, truncated_summary in commits` loop of lines
156-159, with the accumulating `matching_commits` list made explicit. -/
def filterLoop (T : Finset Str) : List Commit → List Commit → List Commit
  | [], acc => acc
  | c :: rest, acc =>
    if c.2 ∈ T then filterLoop T rest (acc ++ [c]) else filterLoop T rest acc

/-- `filter_titles_by_commits(scraped_titles_set, commits)`. -/
def filter_titles_by_commits (T : Finset Str) (C : List Commit) : List Commit :=
  filterLoop T C []

/-! ### Reporting (`save_matching_commits_to_file`, lines 60-76) -/

/-- The line `f"{commit_hash} {summary}\n"` written for each match
(line 73), without its terminating newline. -/
def commitLine (c : Commit) : Str := c.1 ++ ' ' :: c.2

/-- `save_matching_commits_to_file(matching_commits)`.  `writeOk` models
whether opening/writing `matching_commits.txt` succeeds.  The result is
`(contents of the file if it was successfully written, whether an
IOError message was printed to stderr)`.  On an empty input the function
returns at line 67 without touching the file; on an `IOError` the
handler at lines 75-76 prints the error and falls through — it does not
re-raise or exit. -/
def save_matching_commits_to_file (writeOk : Bool) (matching : List Commit) :
    Option (List Str) × Bool :=
  if matching = [] then (none, false)
  else if writeOk then (some (matching.map commitLine), false)
  else (none, true)

/-! ### Commit listing (`get_commits_on_branch`, lines 79-138) -/

/-- Python `line.split(sep, 1)` when `line` contains `sep`: the parts
before and after the first occurrence; `none` when `sep` does not occur
(in which case `split` returns the one-element list `[line]`, so the
`len(parts) == 2` test at line 117 fails exactly when this is `none`). -/
def splitAtFirst (sep : Char) : Str → Option (Str × Str)
  | [] => none
  | c :: cs =>
    if c = sep then some ([], cs)
    else (splitAtFirst sep cs).map (fun p => (c :: p.1, p.2))

/-- Python `str.strip()` (line 113): remove leading and trailing
whitespace. -/
def pyStrip (s : Str) : Str :=
  ((s.dropWhile Char.isWhitespace).reverse.dropWhile Char.isWhitespace).reverse

/-- The `for line in output_lines` loop of lines 114-123, accumulating
both the `commits` list and the lines reported by the
`Warning: Skipping git log line with unexpected format` branch. -/
def gitLogLoop : List Str → List Commit → List Str → List Commit × List Str
  | [], commits, warns => (commits, warns)
  | line :: rest, commits, warns =>
    if line = [] then gitLogLoop rest commits warns
    else
      match splitAtFirst ' ' line with
      | some p =>
        gitLogLoop rest (commits ++ [(p.1, normalize p.2)]) warns
      | none => gitLogLoop rest commits (warns ++ [line])

/-- Lines 113-125: parse `result.stdout` of `git log` into the returned
commit list. -/
def parseGitLog (stdout : Str) : List Commit :=
  (gitLogLoop ((pyStrip stdout).splitOn '\n') [] []).1

/-- The git log lines that triggered the format warning at line 123. -/
def gitLogWarnings (stdout : Str) : List Str :=
  (gitLogLoop ((pyStrip stdout).splitOn '\n') [] []).2

/-- A Python exception escaping a function uncaught. -/
inductive PyExn where
  /-- `FileNotFoundError`, raised by `subprocess.run` when the binary to
  execute does not exist. -/
  | fileNotFoundError : PyExn
deriving DecidableEq

/-- What the external environment does when `get_commits_on_branch` runs:
each constructor selects one behaviour of lines 85-138, and
`success stdout` is a `git log` invocation that exits 0 with the given
standard output. -/
inductive GitEnv where
  /-- Line 85: `os.path.isdir(repo_path)` is false. -/
  | notADirectory : GitEnv
  /-- `git` is not on the PATH when the `rev-parse` call at line 91 runs:
  `subprocess.run` raises `FileNotFoundError`, and the `try` of lines
  90-99 catches only `CalledProcessError`, so the exception escapes the
  function uncaught. -/
  | gitNotFound : GitEnv
  /-- Lines 97-99: `git rev-parse --show-toplevel` exits non-zero. -/
  | notARepo : GitEnv
  /-- `git` ran for `rev-parse` but is gone by the `git log` call at line
  106 — the only scenario that can reach the `except FileNotFoundError`
  handler at lines 127-129. -/
  | gitVanished : GitEnv
  /-- Lines 130-135: `git log` exits non-zero (unknown branch etc.). -/
  | logFailed : GitEnv
  /-- `git log` exits 0 with this standard output. -/
  | success : Str → GitEnv
deriving DecidableEq

/-- The environments on which `get_commits_on_branch` returns `None`:
every failure branch except the missing git binary, which raises at
line 91 before any matching handler. -/
def GitEnv.failedWithNone : GitEnv → Bool
  | .notADirectory => true
  | .notARepo => true
  | .gitVanished => true
  | .logFailed => true
  | .gitNotFound => false
  | .success _ => false

/-- `get_commits_on_branch(repo_path, branch_name)` as a function of what
the environment does.  `Except.error` models an exception propagating
uncaught out of the function; the `return None` branches (lines 87, 99,
129, 135) all run before the parsing loop, so no partial list can
escape. -/
def get_commits_on_branch : GitEnv → Except PyExn (Option (List Commit))
  | .notADirectory => .ok none
  | .gitNotFound => .error .fileNotFoundError
  | .notARepo => .ok none
  | .gitVanished => .ok none
  | .logFailed => .ok none
  | .success stdout => .ok (some (parseGitLog stdout))

/-! ### The `__main__` block (lines 163-247) -/

/-- Observable outcome of a run: the process exit code, the contents of
`matching_commits.txt` if it was (re)written, and whether a file-write
error message was printed to stderr. -/
structure RunResult where
  exitCode : Nat
  fileOutput : Option (List Str)
  writeErrorReported : Bool
deriving DecidableEq

/-- Lines 208-247 of the `__main__` block, from the point where the
scrape result and the commit-lister result are available:
`if not scraped_titles: sys.exit(1)` treats both `None` and the empty
list as failure, and so does `if not repo_commits: sys.exit(1)`;
otherwise the script filters, saves, prints, and falls off the end of
the file with exit code 0. -/
def mainRun (writeOk : Bool) (scraped : Option (List Str))
    (repo : Option (List Commit)) : RunResult :=
  match scraped with
  | none => ⟨1, none, false⟩
  | some ts =>
    if ts = [] then ⟨1, none, false⟩
    else
      match repo with
      | none => ⟨1, none, false⟩
      | some cs =>
        if cs = [] then ⟨1, none, false⟩
        else
          let matching := filter_titles_by_commits (uniqueTitlesSet ts) cs
          let saved := save_matching_commits_to_file writeOk matching
          ⟨0, saved.1, saved.2⟩

/-- The `__main__` block including the commit-lister call itself: the
scrape check at lines 210-212 runs before `get_commits_on_branch` is
invoked at line 226, and an exception raised by the latter propagates
uncaught (the `__main__` block has no `try`), killing the interpreter
with a traceback instead of reaching the check at lines 228-230. -/
def runScript (writeOk : Bool) (scraped : Option (List Str)) (env : GitEnv) :
    Except PyExn RunResult :=
  match scraped with
  | none => .ok ⟨1, none, false⟩
  | some ts =>
    if ts = [] then .ok ⟨1, none, false⟩
    else
      match get_commits_on_branch env with
      | .error e => .error e
      | .ok repo => .ok (mainRun writeOk (some ts) repo)

/-! ### Declarative reformulations used in the statements -/

/-- A git log line that enters the commit list: it splits at its first
space into a hash part and a summary part, and the summary is truncated
(line 120).  Empty lines cannot split, so they are excluded here just as
the `if line:` guard excludes them in the loop. -/
def gitGoodLine (l : Str) : Option Commit :=
  (splitAtFirst ' ' l).map (fun p => (p.1, normalize p.2))

/-- A git log line that triggers the format warning: non-empty but with
no space. -/
def gitBadLine (l : Str) : Bool :=
  !l.isEmpty && (splitAtFirst ' ' l).isNone

/-- The Title Extractor output as the claim C6 words it: one title per
node whose nested link has NON-EMPTY text.  (This is the claim's
description, written out to compare against the code's behaviour.) -/
def scrapeClaimOutput (tds : List (Option Str)) : List Str :=
  tds.filterMap (fun td =>
    match td with
    | some t => if t = [] then none else some (normalize t)
    | none => none)

/-! ### Helper lemmas -/

theorem filterLoop_eq (T : Finset Str) :
    ∀ (l : List Commit) (acc : List Commit),
      filterLoop T l acc = acc ++ l.filter (fun c => decide (c.2 ∈ T))
  | [], acc => by simp [filterLoop]
  | c :: rest, acc => by
    by_cases h : c.2 ∈ T
    · simp [filterLoop, h, filterLoop_eq T rest]
    · simp [filterLoop, h, filterLoop_eq T rest]

theorem filter_titles_by_commits_eq (T : Finset Str) (C : List Commit) :
    filter_titles_by_commits T C = C.filter (fun c => decide (c.2 ∈ T)) := by
  simp [filter_titles_by_commits, filterLoop_eq]

theorem scrapeLoop_eq :
    ∀ (tds : List (Option Str)) (acc : List Str),
      scrapeLoop tds acc = acc ++ tds.filterMap (fun td => td.map normalize)
  | [], acc => by simp [scrapeLoop]
  | some t :: rest, acc => by
    simp [scrapeLoop, scrapeLoop_eq rest]
  | none :: rest, acc => by
    simp [scrapeLoop, scrapeLoop_eq rest]

theorem filterMap_map_normalize_length :
    ∀ tds : List (Option Str),
      (tds.filterMap (fun td => td.map normalize)).length
        = (tds.filter Option.isSome).length
  | [] => rfl
  | some t :: rest => by
    simp [filterMap_map_normalize_length rest]
  | none :: rest => by
    simp [filterMap_map_normalize_length rest]

theorem get_commits_failedWithNone {env : GitEnv}
    (henv : env.failedWithNone = true) :
    get_commits_on_branch env = Except.ok none := by
  cases env with
  | notADirectory => rfl
  | notARepo => rfl
  | gitVanished => rfl
  | logFailed => rfl
  | gitNotFound => simp [GitEnv.failedWithNone] at henv
  | success s => simp [GitEnv.failedWithNone] at henv

theorem gitLogLoop_eq :
    ∀ (lines : List Str) (commits : List Commit) (warns : List Str),
      gitLogLoop lines commits warns
        = (commits ++ lines.filterMap gitGoodLine, warns ++ lines.filter gitBadLine)
  | [], commits, warns => by simp [gitLogLoop]
  | [] :: rest, commits, warns => by
    simp [gitLogLoop, gitLogLoop_eq rest, gitGoodLine, gitBadLine, splitAtFirst]
  | (c :: cs) :: rest, commits, warns => by
    cases hsp : splitAtFirst ' ' (c :: cs) with
    | some p =>
      simp [gitLogLoop, hsp, gitLogLoop_eq rest, gitGoodLine, gitBadLine]
    | none =>
      simp [gitLogLoop, hsp, gitLogLoop_eq rest, gitGoodLine, gitBadLine]

/-! ### Claims -/

/-- C1: `filter_titles_by_commits(T, C)` is an order-preserving
subsequence of `C`; every element of the result has its normalized
summary in `T`; every element of `C` whose normalized summary is in `T`
appears in the result. -/
theorem filter_titles_spec (T : Finset Str) (C : List Commit) :
    (filter_titles_by_commits T C).Sublist C
    ∧ (∀ c ∈ filter_titles_by_commits T C, c.2 ∈ T)
    ∧ (∀ c ∈ C, c.2 ∈ T → c ∈ filter_titles_by_commits T C) := by
  rw [filter_titles_by_commits_eq]
  refine ⟨List.filter_sublist C, ?_, ?_⟩
  · intro c hc
    have h2 := (List.mem_filter.mp hc).2
    simp at h2
    exact h2
  · intro c hc hT
    exact List.mem_filter.mpr ⟨hc, by simpa using hT⟩

/-- C1 witness: the theorem applied at a concrete title set and commit
list. -/
theorem filter_titles_spec_witness :
    (filter_titles_by_commits {['a']} [(['h'], ['a'])]).Sublist [(['h'], ['a'])]
    ∧ (∀ c ∈ filter_titles_by_commits {['a']} [(['h'], ['a'])], c.2 ∈ ({['a']} : Finset Str))
    ∧ (∀ c ∈ [((['h'] : Str), (['a'] : Str))], c.2 ∈ ({['a']} : Finset Str) →
        c ∈ filter_titles_by_commits {['a']} [(['h'], ['a'])]) :=
  filter_titles_spec {['a']} [(['h'], ['a'])]

/-- C2: the normalization `s[:MAX_SUMMARY_LENGTH]` yields a string of
length at most `MAX_SUMMARY_LENGTH` and is idempotent. -/
theorem normalize_bounded_idem (s : Str) :
    (normalize s).length ≤ MAX_SUMMARY_LENGTH
    ∧ normalize (normalize s) = normalize s := by
  constructor
  · rw [normalize]
    exact List.length_take_le MAX_SUMMARY_LENGTH s
  · simp [normalize, List.take_take]

/-- C3 counterexample: on the input `["a", "a"]` the sort at line 218
keeps the duplicate, so the sorted sequence the stage produces is not
strictly increasing (the claim predicts no duplicates remain in it). -/
theorem dedup_sort_counterexample :
    sortedTitles [['a'], ['a']] = [['a'], ['a']]
    ∧ ¬ List.Sorted (fun x y : Str => x < y) (sortedTitles [['a'], ['a']]) := by
  constructor
  · rfl
  · intro hs
    have hlt : (['a'] : Str) < ['a'] :=
      (List.sorted_cons.mp hs).1 ['a'] (by simp)
    exact absurd hlt (lt_irrefl _)

/-- C3 amended: the stage sorts the titles into a non-decreasing sequence
that is a permutation of the input (duplicates are retained in it), and
the set subsequently built from that sequence (line 219) has exactly the
distinct input values as members. -/
theorem dedup_sort_amended (titles : List Str) :
    uniqueTitlesSet titles = titles.toFinset
    ∧ List.Sorted (fun x y : Str => x ≤ y) (sortedTitles titles)
    ∧ List.Perm (sortedTitles titles) titles := by
  refine ⟨?_, ?_, List.perm_insertionSort _ _⟩
  · have hp : List.Perm (sortedTitles titles) titles :=
      List.perm_insertionSort _ _
    rw [uniqueTitlesSet]
    ext a
    simp [List.mem_toFinset, hp.mem_iff]
  · exact List.sorted_insertionSort _ _

/-- C4: on an empty match list the reporter returns without touching the
file, and the run ends with exit code 0 and no file output; on a
non-empty match list (with a writable file) exactly one line per match
is written. -/
theorem reporter_empty_policy (writeOk : Bool) :
    save_matching_commits_to_file writeOk [] = (none, false)
    ∧ (∀ m : List Commit, m ≠ [] →
        save_matching_commits_to_file true m = (some (m.map commitLine), false))
    ∧ (∀ ts cs, ts ≠ [] → cs ≠ [] →
        filter_titles_by_commits (uniqueTitlesSet ts) cs = [] →
        mainRun writeOk (some ts) (some cs) = ⟨0, none, false⟩) := by
  refine ⟨rfl, ?_, ?_⟩
  · intro m hm
    simp [save_matching_commits_to_file, hm]
  · intro ts cs hts hcs hfil
    simp [mainRun, hts, hcs, hfil, save_matching_commits_to_file]

/-- C4 witness: a run whose scrape and commit listing succeed but match
nothing exits 0 without writing the file. -/
theorem reporter_empty_policy_witness :
    mainRun true (some [['x']]) (some [(['h'], ['y'])]) = ⟨0, none, false⟩ :=
  (reporter_empty_policy true).2.2 [['x']] [(['h'], ['y'])]
    (by decide) (by decide) (by decide)

/-- C5: at the failing input (the git binary is absent from the PATH),
`get_commits_on_branch` raises an uncaught `FileNotFoundError` from the
`rev-parse` call at line 91 instead of returning `None` — the handler at
lines 127-129 guards only the second git invocation — and the run aborts
on the unhandled exception before the caller's check at lines 228-230;
on the other enumerated failures the function does return `None` (never
a partial list) and the caller exits with code 1. -/
theorem commit_lister_gitmissing_bug :
    get_commits_on_branch GitEnv.gitNotFound
        = Except.error PyExn.fileNotFoundError
    ∧ runScript true (some [['a']]) GitEnv.gitNotFound
        = Except.error PyExn.fileNotFoundError
    ∧ (∀ env : GitEnv, env.failedWithNone = true →
        get_commits_on_branch env = Except.ok none)
    ∧ (∀ (env : GitEnv) (writeOk : Bool) (ts : List Str),
        env.failedWithNone = true → ts ≠ [] →
        runScript writeOk (some ts) env = Except.ok ⟨1, none, false⟩) := by
  refine ⟨rfl, rfl, fun env henv => get_commits_failedWithNone henv, ?_⟩
  intro env writeOk ts henv hts
  simp [runScript, hts, get_commits_failedWithNone henv, mainRun]

/-- C6 counterexample: a node whose nested link has empty text.  The
claim says such a node yields no title, but the code's guard
`if a_tag:` only tests that the link exists, so the run records the
empty (truncated) title. -/
theorem extractor_counterexample :
    scrape_with_cookies true [some []] = some [[]]
    ∧ scrapeClaimOutput [some []] = []
    ∧ scrape_with_cookies true [some []] ≠ some (scrapeClaimOutput [some []]) := by
  refine ⟨rfl, rfl, ?_⟩
  decide

/-- C6 amended: the extractor yields exactly one (truncated) title per
matching node that contains a nested link element — whether or not the
link's text is empty — in document order, and nodes without a link are
skipped silently. -/
theorem extractor_amended (tds : List (Option Str)) :
    scrape_with_cookies true tds
      = some (tds.filterMap (fun td => td.map normalize))
    ∧ (scrapeLoop tds []).length = (tds.filter Option.isSome).length := by
  constructor
  · simp [scrape_with_cookies, scrapeLoop_eq]
  · rw [scrapeLoop_eq]
    simpa using filterMap_map_normalize_length tds

/-- C7 counterexample: a run with one match and an unwritable output
file reports the write error to stderr but still terminates with exit
code 0 — the claim predicts a non-zero exit code. -/
theorem write_failure_counterexample :
    (mainRun false (some [['t']]) (some [(['h'], ['t'])])).writeErrorReported = true
    ∧ (mainRun false (some [['t']]) (some [(['h'], ['t'])])).exitCode = 0 := by
  decide

/-- C7 amended: when writing the matching-commits file fails, the
failure is reported to stderr, but the run does not abort: it continues
to completion and terminates with exit code 0 (the computed result is
lost). -/
theorem write_failure_amended (ts : List Str) (cs : List Commit)
    (hts : ts ≠ []) (hcs : cs ≠ [])
    (hfil : filter_titles_by_commits (uniqueTitlesSet ts) cs ≠ []) :
    mainRun false (some ts) (some cs) = ⟨0, none, true⟩ := by
  simp [mainRun, hts, hcs, save_matching_commits_to_file, hfil]

/-- C7 amended witness: a concrete matching run with a failing write. -/
theorem write_failure_amended_witness :
    mainRun false (some [['u']]) (some [(['g'], ['u'])]) = ⟨0, none, true⟩ :=
  write_failure_amended [['u']] [(['g'], ['u'])] (by decide) (by decide) (by decide)

/-- C8: two raw titles that agree at every index below
`MAX_SUMMARY_LENGTH` normalize to the same title, and every title set
therefore contains one exactly when it contains the other — the Matcher
cannot distinguish them. -/
theorem prefix_collision (s t : Str)
    (h : ∀ i, i < MAX_SUMMARY_LENGTH → s[i]? = t[i]?) :
    normalize s = normalize t
    ∧ ∀ T : Finset Str, (normalize s ∈ T ↔ normalize t ∈ T) := by
  have heq : normalize s = normalize t := by
    apply List.ext_getElem?
    intro i
    by_cases hi : i < MAX_SUMMARY_LENGTH
    · rw [normalize, normalize, List.getElem?_take_of_lt hi,
        List.getElem?_take_of_lt hi]
      exact h i hi
    · rw [normalize, normalize,
        List.getElem?_take_eq_none (le_of_not_lt hi),
        List.getElem?_take_eq_none (le_of_not_lt hi)]
  exact ⟨heq, fun T => by rw [heq]⟩

/-- C8 witness: two 51-character titles differing only at index 50. -/
theorem prefix_collision_witness :
    normalize (List.replicate 50 'a' ++ ['b'])
      = normalize (List.replicate 50 'a' ++ ['c'])
    ∧ ∀ T : Finset Str,
        (normalize (List.replicate 50 'a' ++ ['b']) ∈ T
          ↔ normalize (List.replicate 50 'a' ++ ['c']) ∈ T) :=
  prefix_collision (List.replicate 50 'a' ++ ['b'])
    (List.replicate 50 'a' ++ ['c']) (by decide)

/-- C9: a successful scrape that yields zero titles makes the run exit
with code 1, with no file written and no later stage reached: the
result does not depend on the commit-lister input at all. -/
theorem empty_scrape_aborts (writeOk : Bool) (repo : Option (List Commit)) :
    mainRun writeOk (some []) repo = ⟨1, none, false⟩ := by
  simp [mainRun]

/-- C10: the parsed git log is exactly the non-empty lines of the
stripped output that split at their first space, each becoming a
`(hash, truncated summary)` pair in log order, and the warned-about
lines are exactly the non-empty lines with no space. -/
theorem git_log_parse_spec (stdout : Str) :
    parseGitLog stdout = ((pyStrip stdout).splitOn '\n').filterMap gitGoodLine
    ∧ gitLogWarnings stdout = ((pyStrip stdout).splitOn '\n').filter gitBadLine := by
  constructor
  · simp [parseGitLog, gitLogLoop_eq]
  · simp [gitLogWarnings, gitLogLoop_eq]

end ScrapeGerrit
